import Mathlib

/-!
Verification of `src/python/sqlflow_submitter/tensorflow/keras_train_pred.py`.

The script binds no names of its own: it pulls seven configuration values
from `sqlflow_submitter.tensorflow.estimator_train_pred` and, under the
`if __name__ == "__main__"` guard, performs exactly two external calls,
`train(...)` followed by `pred(...)`, each with an explicit keyword-argument
list.  We embed the two keyword-argument lists literally, and give the guard
a small trace semantics: the external `train` and `pred` calls are
parameters that either return normally or raise an exception (modelled as
`Except String Unit`, the payload being the exception value), and running
the script yields the list of external calls it performed together with the
exception it propagated, if any.
-/

namespace KerasTrainPred

/-- Values occurring inside the `model_params` dict literals of the script:
every entry of those dicts is either a Python int (`"n_classes": 3`) or a
list of ints (`"hidden_units": [10, 20]`). -/
inductive ParamVal where
  | int (n : Int)
  | intList (xs : List Int)
deriving DecidableEq, Repr

/-- Argument values occurring in the script's two call expressions.  The
grammar covers exactly the forms the file uses: the boolean literal `True`,
string literals, int literals, the `model_params` dict literals, and the
seven names the file pulls in from `estimator_train_pred` (whose values are
opaque to this file and are therefore represented by the bound name). -/
inductive Value where
  | bool (b : Bool)
  | str (s : String)
  | int (n : Int)
  | dict (kvs : List (String × ParamVal))
  | ext (name : String)
deriving DecidableEq, Repr

/-- An observable action of the script: a call into one of the two external
entry points, with its keyword-argument list. -/
inductive Action where
  | callTrain (args : List (String × Value))
  | callPred (args : List (String × Value))
deriving DecidableEq, Repr

/-- The seven names the file pulls in from
`sqlflow_submitter.tensorflow.estimator_train_pred`, in source order. -/
def extNames : List String :=
  ["datasource", "select", "validate_select", "feature_column_names",
   "feature_column_code", "feature_metas", "label_meta"]

/-- The `model_params` dict literal written at the `train(...)` call site. -/
def trainModelParams : List (String × ParamVal) :=
  [("n_classes", ParamVal.int 3),
   ("hidden_units", ParamVal.intList [10, 20])]

/-- The `model_params` dict literal written at the `pred(...)` call site
(the script repeats the literal rather than sharing a binding). -/
def predModelParams : List (String × ParamVal) :=
  [("n_classes", ParamVal.int 3),
   ("hidden_units", ParamVal.intList [10, 20])]

/-- The keyword-argument list of the `train(...)` call, in source order. -/
def trainArgs : List (String × Value) :=
  [("is_keras_model", Value.bool true),
   ("datasource", Value.ext "datasource"),
   ("estimator", Value.str "sqlflow_models.DNNClassifier"),
   ("select", Value.ext "select"),
   ("validate_select", Value.ext "validate_select"),
   ("feature_column_code", Value.ext "feature_column_code"),
   ("feature_column_names", Value.ext "feature_column_names"),
   ("feature_metas", Value.ext "feature_metas"),
   ("label_meta", Value.ext "label_meta"),
   ("model_params", Value.dict trainModelParams),
   ("save", Value.str "mymodel_keras"),
   ("batch_size", Value.int 1),
   ("epochs", Value.int 1),
   ("verbose", Value.int 0)]

/-- The keyword-argument list of the `pred(...)` call, in source order. -/
def predArgs : List (String × Value) :=
  [("is_keras_model", Value.bool true),
   ("datasource", Value.ext "datasource"),
   ("estimator", Value.str "sqlflow_models.DNNClassifier"),
   ("select", Value.ext "select"),
   ("result_table", Value.str "iris.predict"),
   ("feature_column_code", Value.ext "feature_column_code"),
   ("feature_column_names", Value.ext "feature_column_names"),
   ("feature_metas", Value.ext "feature_metas"),
   ("label_meta", Value.ext "label_meta"),
   ("model_params", Value.dict predModelParams),
   ("save", Value.str "mymodel_keras"),
   ("batch_size", Value.int 1)]

/-- The body of the `__main__` guard: call `train`, and if it returns
normally call `pred`; an exception from either call propagates unchanged.
`tRes`/`pRes` are the outcomes the external `train`/`pred` implementations
produce when invoked.  The result is the list of calls performed, in order,
paired with the propagated exception if one was raised. -/
def runMain (tRes pRes : Except String Unit) :
    List Action × Option String :=
  match tRes with
  | Except.error e => ([Action.callTrain trainArgs], some e)
  | Except.ok _ =>
    match pRes with
    | Except.error e =>
      ([Action.callTrain trainArgs, Action.callPred predArgs], some e)
    | Except.ok _ =>
      ([Action.callTrain trainArgs, Action.callPred predArgs], none)

/-- Executing the module with the given `__name__`: the guard body runs
only when the module is the main program; otherwise the module body
performs no call and raises nothing. -/
def runScript (name : String) (tRes pRes : Except String Unit) :
    List Action × Option String :=
  if name = "__main__" then runMain tRes pRes else ([], none)

/-- Running the script with `__name__` set to `"__main__"` enters the
guard body. -/
theorem runScript_main (tRes pRes : Except String Unit) :
    runScript "__main__" tRes pRes = runMain tRes pRes :=
  if_pos rfl

/-- C1: when the script is executed as the main program and both external
calls return normally, the observable behaviour is exactly one `train(...)`
call followed by exactly one `pred(...)` call — the trace equality leaves
no room for any other external call, output, or propagated exception. -/
theorem C1_main_calls_train_then_pred_exactly_once :
    runScript "__main__" (Except.ok ()) (Except.ok ()) =
      ([Action.callTrain trainArgs, Action.callPred predArgs], none) :=
  rfl

/-- C2: the single `train(...)` call made under the main guard passes the
literal keyword arguments `is_keras_model=True`,
`estimator="sqlflow_models.DNNClassifier"`, the `model_params` mapping
with `n_classes` 3 and `hidden_units` [10, 20], `save="mymodel_keras"`,
`batch_size=1`, `epochs=1` and `verbose=0`. -/
theorem C2_train_literal_kwargs :
    List.lookup "is_keras_model" trainArgs = some (Value.bool true) ∧
    List.lookup "estimator" trainArgs =
      some (Value.str "sqlflow_models.DNNClassifier") ∧
    List.lookup "model_params" trainArgs =
      some (Value.dict [("n_classes", ParamVal.int 3),
                        ("hidden_units", ParamVal.intList [10, 20])]) ∧
    List.lookup "save" trainArgs = some (Value.str "mymodel_keras") ∧
    List.lookup "batch_size" trainArgs = some (Value.int 1) ∧
    List.lookup "epochs" trainArgs = some (Value.int 1) ∧
    List.lookup "verbose" trainArgs = some (Value.int 0) := by
  decide

/-- C3: the single `pred(...)` call passes the same shared metadata values
as the `train(...)` call (datasource, select, estimator,
feature_column_code, feature_column_names, feature_metas, label_meta,
model_params) together with `result_table="iris.predict"`,
`save="mymodel_keras"` and `batch_size=1`. -/
theorem C3_pred_shares_train_metadata :
    (∀ k ∈ ["datasource", "select", "estimator", "feature_column_code",
            "feature_column_names", "feature_metas", "label_meta",
            "model_params"],
       List.lookup k predArgs = List.lookup k trainArgs) ∧
    List.lookup "result_table" predArgs = some (Value.str "iris.predict") ∧
    List.lookup "save" predArgs = some (Value.str "mymodel_keras") ∧
    List.lookup "batch_size" predArgs = some (Value.int 1) := by
  exact ⟨by decide, rfl, rfl, rfl⟩

/-- Witness for C3 at the concrete keyword `datasource`. -/
theorem C3_witness :
    List.lookup "datasource" predArgs = List.lookup "datasource" trainArgs :=
  C3_pred_shares_train_metadata.1 "datasource" (by decide)

/-- C4: in every execution as the main program — whatever the outcomes of
the external calls — the trace starts with the `train` call, and the
`pred` call appears in the trace only if `train` returned normally, in
which case the trace is exactly `train` then `pred`: execution is a single
sequential order with `train` completing before `pred` begins. -/
theorem C4_train_completes_before_pred (tRes pRes : Except String Unit) :
    (runScript "__main__" tRes pRes).1.head? =
      some (Action.callTrain trainArgs) ∧
    (Action.callPred predArgs ∈ (runScript "__main__" tRes pRes).1 →
       tRes = Except.ok () ∧
       (runScript "__main__" tRes pRes).1 =
         [Action.callTrain trainArgs, Action.callPred predArgs]) := by
  rw [runScript_main]
  cases tRes with
  | error e =>
    exact ⟨rfl, fun hmem =>
      absurd (show Action.callPred predArgs ∈ [Action.callTrain trainArgs]
              from hmem) (by decide)⟩
  | ok u =>
    cases u
    cases pRes with
    | error e => exact ⟨rfl, fun _ => ⟨rfl, rfl⟩⟩
    | ok v => cases v; exact ⟨rfl, fun _ => ⟨rfl, rfl⟩⟩

/-- Witness for C4: at the successful outcomes the `pred` call is in the
trace and the trace is the two-call sequence. -/
theorem C4_witness :
    (runScript "__main__" (Except.ok ()) (Except.ok ())).1 =
      [Action.callTrain trainArgs, Action.callPred predArgs] :=
  ((C4_train_completes_before_pred (Except.ok ()) (Except.ok ())).2
    (by decide)).2

/-- C5: every keyword supplied to both calls receives the same value in
`pred(...)` as in `train(...)`, and the two `model_params` dict literals
agree as mappings (they yield the same result on every possible key). -/
theorem C5_shared_parameters_equal :
    (∀ k ∈ ["is_keras_model", "datasource", "select", "estimator",
            "feature_column_names", "feature_column_code", "feature_metas",
            "label_meta", "model_params", "save", "batch_size"],
       List.lookup k predArgs = List.lookup k trainArgs) ∧
    (∀ s : String,
       List.lookup s trainModelParams = List.lookup s predModelParams) := by
  exact ⟨by decide, fun s => rfl⟩

/-- Witness for C5 at the concrete keyword `datasource` and the concrete
`model_params` key `n_classes`. -/
theorem C5_witness :
    List.lookup "datasource" predArgs = List.lookup "datasource" trainArgs ∧
    List.lookup "n_classes" trainModelParams =
      List.lookup "n_classes" predModelParams :=
  ⟨C5_shared_parameters_equal.1 "datasource" (by decide),
   C5_shared_parameters_equal.2 "n_classes"⟩

/-- C6 counterexample: it is not the case that every configuration value is
consumed exactly once across the two call expressions — the keyword
`datasource` (bound to the same value pulled in from
`estimator_train_pred`) is supplied in both the `train` and the `pred`
call, so it is consumed twice. -/
theorem C6_counterexample :
    ¬ (∀ k ∈ (trainArgs ++ predArgs).map Prod.fst,
         ((trainArgs ++ predArgs).map Prod.fst).count k = 1) := by
  decide

/-- C6 amended: every keyword is supplied exactly once within each call
expression; across the two calls a keyword is consumed at most twice; and
whenever a keyword is shared by both calls it carries the same value in
each — no value is mutated between the two consumptions. -/
theorem C6_values_consumed_once_per_call :
    (∀ k ∈ trainArgs.map Prod.fst,
       (trainArgs.map Prod.fst).count k = 1) ∧
    (∀ k ∈ predArgs.map Prod.fst,
       (predArgs.map Prod.fst).count k = 1) ∧
    (∀ k ∈ (trainArgs ++ predArgs).map Prod.fst,
       ((trainArgs ++ predArgs).map Prod.fst).count k ≤ 2) ∧
    (∀ k ∈ predArgs.map Prod.fst,
       List.lookup k trainArgs ≠ none →
       List.lookup k predArgs = List.lookup k trainArgs) := by
  decide

/-- Witness for the amended C6 at the concrete keyword `datasource`. -/
theorem C6_witness :
    ((trainArgs ++ predArgs).map Prod.fst).count "datasource" ≤ 2 :=
  C6_values_consumed_once_per_call.2.2.1 "datasource" (by decide)

/-- C7: the keyword names passed in the `train(...)` call are exactly the
fourteen listed, in source order — no more and no fewer. -/
theorem C7_train_keyword_set_exact :
    trainArgs.map Prod.fst =
      ["is_keras_model", "datasource", "estimator", "select",
       "validate_select", "feature_column_code", "feature_column_names",
       "feature_metas", "label_meta", "model_params", "save", "batch_size",
       "epochs", "verbose"] :=
  rfl

/-- C8: an exception raised inside `train` propagates unmodified (the
script re-raises the very same value) and prevents the `pred` call; an
exception raised inside `pred` likewise propagates unmodified after both
calls were made.  The script installs no handler of its own. -/
theorem C8_exceptions_propagate_unmodified (e : String)
    (pRes : Except String Unit) :
    runScript "__main__" (Except.error e) pRes =
      ([Action.callTrain trainArgs], some e) ∧
    runScript "__main__" (Except.ok ()) (Except.error e) =
      ([Action.callTrain trainArgs, Action.callPred predArgs], some e) ∧
    Action.callPred predArgs ∉
      (runScript "__main__" (Except.error e) pRes).1 := by
  refine ⟨runScript_main _ _, runScript_main _ _, ?_⟩
  rw [runScript_main]
  show Action.callPred predArgs ∉ [Action.callTrain trainArgs]
  decide

/-- Witness for C8 at a concrete exception value. -/
theorem C8_witness :
    runScript "__main__" (Except.error "boom") (Except.ok ()) =
      ([Action.callTrain trainArgs], some "boom") :=
  (C8_exceptions_propagate_unmodified "boom" (Except.ok ())).1

/-- C9: when the module is loaded with any `__name__` other than
`"__main__"` (i.e. it is imported rather than invoked directly), neither
`train` nor `pred` is called and nothing is raised: the module body
performs no observable action beyond its imports. -/
theorem C9_import_performs_no_calls (name : String)
    (tRes pRes : Except String Unit) (h : name ≠ "__main__") :
    runScript name tRes pRes = ([], none) := by
  unfold runScript
  exact if_neg h

/-- Witness for C9 at the module's dotted import name. -/
theorem C9_witness :
    runScript "sqlflow_submitter.tensorflow.keras_train_pred"
      (Except.ok ()) (Except.ok ()) = ([], none) :=
  C9_import_performs_no_calls _ _ _ (by decide)

/-- C10: the `pred(...)` call also receives `is_keras_model=True`, and its
keyword set is exactly the twelve names listed — in particular it receives
none of `validate_select`, `epochs` or `verbose`. -/
theorem C10_pred_keyword_set_exact :
    predArgs.map Prod.fst =
      ["is_keras_model", "datasource", "estimator", "select",
       "result_table", "feature_column_code", "feature_column_names",
       "feature_metas", "label_meta", "model_params", "save",
       "batch_size"] ∧
    List.lookup "is_keras_model" predArgs = some (Value.bool true) ∧
    "validate_select" ∉ predArgs.map Prod.fst ∧
    "epochs" ∉ predArgs.map Prod.fst ∧
    "verbose" ∉ predArgs.map Prod.fst := by
  decide

end KerasTrainPred
